import Mathlib

/-!
Verification of the fetch–extract–persist pipeline in
`Data_scraping/scrape.py` (repository `abandoned-oil-wells`).

The Python module is shallowly embedded.  Pure string manipulation is
translated into Lean functions over `List Char`, and effectful code is
translated into explicit state passing over a `World` record that carries
the emitted log lines, the observed `time.sleep` pauses, the files written
under the working directory and the directories created.  A Python
exception escaping a function is an `Except.error`; `requests.HTTPError`,
`requests.ConnectionError`, `AttributeError`, `IndexError`, `KeyError`,
`TypeError` and a crash of the tika extraction service are distinguished.

External collaborators (the network reached through `requests.get`, the
tika extraction service, BeautifulSoup parsing and navigation, and the
pandas data-frame pipeline inside `get_districts`) are not part of the
repository's code; they enter as components of an `Env` record of
uninterpreted functions, so that every theorem quantifies over their
behaviour and concrete scenarios instantiate them.
-/

/-! ## Filesystem and effect model -/

/-- A filesystem path, as its list of components; `data/x/y.pdf` is
`["data", "x", "y.pdf"]`.  `FsPath(_DATA_ROOT) / relative_path` is modelled
by consing the root in front of the relative components. -/
abbrev FsPath := List String

/-- Contents of a file written by the scraper: raw bytes
(`FsPath.write_bytes`) or text (`FsPath.write_text` / `open(..., 'w')`). -/
inductive FileData where
  | binary (content : List Nat)
  | text (s : String)
deriving DecidableEq, Repr

/-- One emitted log line, tagged with its level
(`logging.info` / `logging.error`). -/
inductive LogEntry where
  | info (msg : String)
  | error (msg : String)
deriving DecidableEq, Repr

/-- The Python exceptions that the module can raise or catch. -/
inductive PyExc where
  | httpError
  | connectionError
  | tikaError
  | attributeError
  | indexError
  | keyError
  | typeError
deriving DecidableEq, Repr

deriving instance DecidableEq for Except

/-- Observable state of a run: log lines in order of emission, the list of
`time.sleep` pauses observed (each element is a pause duration), the files
on disk (later writes to the same path overwrite), and the directories
created by `mkdir(parents=True, exist_ok=True)`. -/
structure World where
  log : List LogEntry
  pauses : List Nat
  fs : List (FsPath × FileData)
  dirs : List FsPath
deriving DecidableEq, Repr

/-- The world at the start of a run: nothing logged, no pause observed,
no file and no directory created by the program. -/
def emptyWorld : World := { log := [], pauses := [], fs := [], dirs := [] }

/-- A stateful, fallible computation: Python code that may read and write
the world and may let an exception escape. -/
def M (α : Type) : Type := World → World × Except PyExc α

/-- Overwrite semantics of a file write: the new entry replaces any entry
at the same path. -/
def fsWrite (fs : List (FsPath × FileData)) (p : FsPath) (d : FileData) :
    List (FsPath × FileData) :=
  (p, d) :: fs.filter (fun e => decide (e.1 ≠ p))

/-- Look up the contents of a file. -/
def fsGet (fs : List (FsPath × FileData)) (p : FsPath) : Option FileData :=
  (fs.find? (fun e => decide (e.1 = p))).map (fun e => e.2)

/-- The non-empty ancestor paths created by
`parent.mkdir(parents = True, exist_ok = True)` applied to `d`. -/
def ancestorsOf (d : FsPath) : List FsPath :=
  (List.range d.length).map (fun n => d.take (n + 1))

/-! ## External collaborators -/

/-- Result of one `requests.get` call: either the server answers with a
status code, a byte body (`r.content`) and a decoded text body (`r.text`),
or the request fails at the network level and `requests` raises a
`ConnectionError`. -/
inductive FetchOutcome where
  | response (status : Nat) (content : List Nat) (text : String)
  | networkError
deriving DecidableEq, Repr

/-- Result of `tika.parser.from_file`: a dictionary with a `metadata`
entry and a `content` entry that is `None` or a string, or a crash of the
extraction service. -/
inductive TikaOutcome where
  | ok (metadata : List (String × String)) (content : Option String)
  | failure

/-- A parsed HTML document tree (the BeautifulSoup object).  Its structure
is never inspected by the embedded code; navigation happens through the
`Env` functions. -/
inductive Node where
  | text (s : String)
  | tag (name : String) (attrs : List (String × String)) (children : List Node)

/-- A BeautifulSoup tag as the scraper reads it: its name, its `.string`
(`None` when absent), the stringified members of `.contents`, and its
attribute dictionary. -/
structure Tag where
  name : String
  string : Option String
  contents : List String
  attrs : List (String × String)

/-- `tag[key]`: attribute lookup, `none` when the subscript would raise a
`KeyError`. -/
def tagAttr (t : Tag) (k : String) : Option String :=
  match t.attrs.find? (fun p => p.1 == k) with
  | none => none
  | some p => some p.2

/-- Behaviour of the external collaborators during one run.  `net` is the
remote server as seen through `requests.get`; `tika` is the extraction
service keyed by the string form of the file path; the remaining fields
are the BeautifulSoup operations (parsing, prettify, find by id, parent,
sibling and descendant navigation) and, for `get_districts`, the pandas
pipeline of the `try` block collapsed into one function returning the CSV
text on success and `none` when any of its steps raises. -/
structure Env where
  net : String → FetchOutcome
  tika : String → TikaOutcome
  parseHtml : String → Node
  prettifySoup : Node → String
  pprintMeta : List (String × String) → String
  tableStr : Node → String
  districtsTransform : String → Option String
  findById : Node → String → Option Tag
  tagParent : Tag → Tag
  findNextSibling : Tag → Option Tag
  findAll : Tag → String → List Tag
  descendants : Tag → List Tag
  findIn : Tag → String → Option Tag
  soupTable : Node → Option Tag
  soupTags : Node → List Tag

/-! ## String helpers (Python string methods on `List Char`) -/

/-- Python `str.strip()`: remove leading and trailing whitespace. -/
def pyStrip (l : List Char) : List Char :=
  ((l.dropWhile Char.isWhitespace).reverse.dropWhile Char.isWhitespace).reverse

/-- Python `str.replace(c, r)` for a single-character pattern and a
single-character replacement. -/
def replaceChar (c r : Char) : List Char → List Char
  | [] => []
  | x :: xs => (if x = c then r else x) :: replaceChar c r xs

/-- Python `str.replace(c, '')` for a single-character pattern: delete all
occurrences. -/
def dropCharAll (c : Char) (l : List Char) : List Char :=
  l.filter (fun x => decide (x ≠ c))

/-- ASCII `str.lower()`. -/
def lowerStr (s : String) : String := String.mk (s.data.map Char.toLower)

/-- Whether `pat` is an initial segment of `l`. -/
def leadsWith : List Char → List Char → Bool
  | [], _ => true
  | _ :: _, [] => false
  | p :: ps, x :: xs => p == x && leadsWith ps xs

/-- Whether `pat` occurs contiguously somewhere in `l` (Python `in`). -/
def containsSeq (pat : List Char) : List Char → Bool
  | [] => leadsWith pat []
  | x :: xs => leadsWith pat (x :: xs) || containsSeq pat xs

/-- `re.search(r'\d+', s)` succeeds iff some character is a digit. -/
def hasDigit (s : String) : Bool := s.data.any Char.isDigit

/-- `re.search(r'(\d{4})\.', filename)`: scan left to right for the first
position where four digits are immediately followed by a period, and
return the four digits (`.group(1)`); `none` when the regex does not
match. -/
def yearSearch : List Char → Option String
  | c1 :: c2 :: c3 :: c4 :: c5 :: rest =>
    if c1.isDigit && c2.isDigit && c3.isDigit && c4.isDigit && c5 == '.' then
      some (String.mk [c1, c2, c3, c4])
    else
      yearSearch (c2 :: c3 :: c4 :: c5 :: rest)
  | _ => none

/-- Index of the last `.` in a name (Python `str.rfind('.')`), counted in
characters. -/
def rlastIdx (c : Char) (l : List Char) : Option Nat :=
  match (l.reverse).findIdx? (fun x => x == c) with
  | none => none
  | some j => some (l.length - 1 - j)

/-- `pathlib.PurePath.suffix` of a file name: the part from the last dot,
empty when the dot is absent, leading, or trailing. -/
def suffixOfName (name : String) : String :=
  match rlastIdx '.' name.data with
  | none => ""
  | some i =>
    if 0 < i ∧ i < name.data.length - 1 then String.mk (name.data.drop i) else ""

/-- `pathlib.PurePath.stem` of a file name. -/
def stemOfName (name : String) : String :=
  match rlastIdx '.' name.data with
  | none => name
  | some i =>
    if 0 < i ∧ i < name.data.length - 1 then String.mk (name.data.take i) else name

/-- Final component of a path (`PurePath.name`). -/
def lastName (p : FsPath) : String := p.getLastD ""

/-- `file_path.suffix`. -/
def pathSuffix (p : FsPath) : String := suffixOfName (lastName p)

/-- `str(file_path)`: components joined with `/`. -/
def pathStr : FsPath → String
  | [] => ""
  | [x] => x
  | x :: xs => x ++ "/" ++ pathStr xs

/-- `hay` contains `needle` as a substring (for statements about log
messages). -/
def StrContains (hay needle : String) : Prop := ∃ a b, hay = a ++ (needle ++ b)

/-! ## Module constants (`scrape.py` lines 28–49) -/

/-- `_BASE_URL`, prepended to relative urls in following links. -/
def _BASE_URL : String := "https://www.rrc.state.tx.us"

/-- `_DELAY`, the fixed pause duration after each request. -/
def _DELAY : Nat := 5

/-- `_DATA_ROOT`, the directory that receives all scraped data. -/
def _DATA_ROOT : String := "data"

/-- `_SAVED_PAGES`, subdirectory of `_DATA_ROOT` for prettified html. -/
def _SAVED_PAGES : String := "saved_pages"

/-! ## Log messages (the module's f-strings) -/

/-- Message logged by `_get` on a failed download. -/
def failMsg (url text : String) : String :=
  "Failed to download\n" ++ (url ++ ("\n\nHTTP response:\n\n" ++ (text ++ "\n")))

/-- Message logged by `_get` on a successful download. -/
def successMsg (url : String) : String :=
  "Successfully downloaded data for\n" ++ (url ++ "\n")

/-- Message logged by `get_binary_file` after saving. -/
def savedBinaryMsg (p : FsPath) : String :=
  "Saved binary data to\n" ++ (pathStr p ++ "\n")

/-- Message logged by `parse_pdf` before invoking tika. -/
def attemptMsg (p : FsPath) : String :=
  "Attempting to extract text content from pdf file\n" ++ (pathStr p ++ "\n")

/-- Message logged by `parse_pdf` after saving the extracted text. -/
def savedParsedMsg (p : FsPath) : String :=
  "Saved parsed text to\n" ++ (pathStr p ++ "\n")

/-- Message logged by `parse_pdf` when tika found no text content. -/
def noContentMsg (p : FsPath) : String :=
  "No text content found in pdf file\n" ++ (pathStr p ++ "\n")

/-- Message logged by `get_districts` when the pandas pipeline raises. -/
def failedDfMsg (url : String) : String :=
  "Failed to extract data frame of RRC district codes from\n" ++ (url ++ "\n")

/-- Message logged by `get_districts` when the pandas pipeline succeeds. -/
def successDfMsg (url : String) : String :=
  "Successfully extracted data frame of RRC district codes from\n" ++ (url ++ "\n")

/-- Message logged by `get_districts` after writing the CSV. -/
def savedCsvMsg (p : FsPath) : String :=
  "Saved table of RRC district codes to\n" ++ (pathStr p ++ "\n")

/-! ## Utility functions (`scrape.py` lines 377–380) -/

/-- `_check_parents(file_path)`: create the missing parents of the path. -/
def _check_parents (p : FsPath) (w : World) : World :=
  { w with dirs := w.dirs ++ ancestorsOf p.dropLast }

/-! ## Fetching and saving (`scrape.py` lines 56–119) -/

/-- `_get(url)` (lines 56–76).  `requests.get` either raises a network
error or returns a response; `raise_for_status` raises `HTTPError`
exactly for status codes in `[400, 600)`, which `_get` logs and re-raises
before ever reaching the sleep; on the non-raising path `_get` logs the
success and then sleeps `_DELAY` once. -/
def _get (env : Env) (url : String) : M FetchOutcome := fun w =>
  match env.net url with
  | FetchOutcome.networkError => (w, Except.error PyExc.connectionError)
  | FetchOutcome.response s c t =>
    if 400 ≤ s ∧ s < 600 then
      ({ w with log := w.log ++ [LogEntry.error (failMsg url t)] },
       Except.error PyExc.httpError)
    else
      ({ w with
          log := w.log ++ [LogEntry.info (successMsg url)],
          pauses := w.pauses ++ [_DELAY] },
       Except.ok (FetchOutcome.response s c t))

/-- `r.text` of a successful `_get` result. -/
def respText : FetchOutcome → String
  | FetchOutcome.response _ _ t => t
  | FetchOutcome.networkError => ""

/-- `r.content` of a successful `_get` result. -/
def respContent : FetchOutcome → List Nat
  | FetchOutcome.response _ c _ => c
  | FetchOutcome.networkError => []

/-- `get_html_string(url)` (lines 79–82). -/
def get_html_string (env : Env) (url : String) : M String := fun w =>
  match _get env url w with
  | (w1, Except.error e) => (w1, Except.error e)
  | (w1, Except.ok r) => (w1, Except.ok (respText r))

/-- FsPath of the metadata artifact written by `parse_pdf`:
`parent / (stem + '_metadata.txt')`. -/
def metaPath (p : FsPath) : FsPath :=
  p.dropLast ++ [stemOfName (lastName p) ++ "_metadata.txt"]

/-- FsPath of the content artifact written by `parse_pdf`:
`parent / (stem + '_parsed.txt')`. -/
def contentPath (p : FsPath) : FsPath :=
  p.dropLast ++ [stemOfName (lastName p) ++ "_parsed.txt"]

/-- `parse_pdf(file_path)` (lines 127–159).  Logs the attempt, calls the
extraction service — whose crash is NOT caught here and escapes — and on
a result either writes the two sibling artifacts (when `parsed['content']`
is truthy) or only logs that no text was found. -/
def parse_pdf (env : Env) (file_path : FsPath) : M Unit := fun w =>
  let w1 := { w with log := w.log ++ [LogEntry.info (attemptMsg file_path)] }
  match env.tika (pathStr file_path) with
  | TikaOutcome.failure => (w1, Except.error PyExc.tikaError)
  | TikaOutcome.ok md content =>
    match content with
    | none =>
      ({ w1 with log := w1.log ++ [LogEntry.info (noContentMsg file_path)] },
       Except.ok ())
    | some s =>
      if s = "" then
        ({ w1 with log := w1.log ++ [LogEntry.info (noContentMsg file_path)] },
         Except.ok ())
      else
        let w2 := { w1 with
          fs := fsWrite w1.fs (metaPath file_path) (FileData.text (env.pprintMeta md)) }
        let w3 := { w2 with
          fs := fsWrite w2.fs (contentPath file_path) (FileData.text s) }
        ({ w3 with log := w3.log ++ [LogEntry.info (savedParsedMsg (contentPath file_path))] },
         Except.ok ())

/-- `get_binary_file(url, relative_path)` (lines 85–106).  Only
`requests.HTTPError` is caught (and turned into an early plain return);
any other exception from `_get` escapes.  On success the payload is
written under `_DATA_ROOT`, the save is logged, and `parse_pdf` runs
synchronously when the suffix is `.pdf`. -/
def get_binary_file (env : Env) (url : String) (relative_path : FsPath) : M Unit := fun w =>
  match _get env url w with
  | (w1, Except.error PyExc.httpError) => (w1, Except.ok ())
  | (w1, Except.error e) => (w1, Except.error e)
  | (w1, Except.ok r) =>
    let file_path := _DATA_ROOT :: relative_path
    let w2 := _check_parents file_path w1
    let w3 := { w2 with fs := fsWrite w2.fs file_path (FileData.binary (respContent r)) }
    let w4 := { w3 with log := w3.log ++ [LogEntry.info (savedBinaryMsg file_path)] }
    if pathSuffix file_path = ".pdf" then parse_pdf env file_path w4
    else (w4, Except.ok ())

/-- `get_soup(url, filename)` (lines 109–119).  A fetch failure
propagates; on success the original html is parsed, its prettified form is
saved under `data/saved_pages/filename`, and the tree parsed from the
ORIGINAL html string is returned. -/
def get_soup (env : Env) (url : String) (filename : String) : M Node := fun w =>
  match get_html_string env url w with
  | (w1, Except.error e) => (w1, Except.error e)
  | (w1, Except.ok html_string) =>
    let soup := env.parseHtml html_string
    let pretty := env.prettifySoup soup
    let file_path : FsPath := [_DATA_ROOT, _SAVED_PAGES, filename]
    let w2 := _check_parents file_path w1
    let w3 := { w2 with fs := fsWrite w2.fs file_path (FileData.text pretty) }
    (w3, Except.ok soup)

/-- The world after the save phase of a successful `get_binary_file` call:
success logged and one pause by `_get`, parents created, payload written,
save logged — everything that happens before any extraction. -/
def savedWorld (url : String) (rp : FsPath) (c : List Nat) (w : World) : World :=
  { w with
      log := w.log ++ [LogEntry.info (successMsg url),
                       LogEntry.info (savedBinaryMsg (_DATA_ROOT :: rp))],
      pauses := w.pauses ++ [_DELAY],
      dirs := w.dirs ++ ancestorsOf (_DATA_ROOT :: rp).dropLast,
      fs := fsWrite w.fs (_DATA_ROOT :: rp) (FileData.binary c) }

/-! ## Loop combinators for the `for` loops of the routines -/

/-- Run the body over a list, stopping at the first escaping exception. -/
def runList {α : Type} (f : α → M Unit) : List α → M Unit
  | [] => fun w => (w, Except.ok ())
  | x :: xs => fun w =>
    match f x w with
    | (w1, Except.ok _) => runList f xs w1
    | (w1, Except.error e) => (w1, Except.error e)

/-- Run the body over `enumerate(list)` starting at index `i`. -/
def runListIdx {α : Type} (f : Nat → α → M Unit) : Nat → List α → M Unit
  | _, [] => fun w => (w, Except.ok ())
  | i, x :: xs => fun w =>
    match f i x w with
    | (w1, Except.ok _) => runListIdx f (i + 1) xs w1
    | (w1, Except.error e) => (w1, Except.error e)

/-! ## URL-specific scraping routines (`scrape.py` lines 189–370) -/

/-- URL of the districts page. -/
def districts_url : String :=
  "https://www.rrc.state.tx.us/about-us/organization-activities/rrc-locations/counties-by-dist/"

/-- URL of the cleanup-reports page. -/
def cleanup_url : String :=
  "https://www.rrc.state.tx.us/oil-gas/environmental-cleanup-programs/oil-gas-regulation-and-cleanup-fund/"

/-- URL of the well-distribution page. -/
def well_dist_url : String :=
  "https://www.rrc.state.tx.us/oil-gas/research-and-statistics/well-information/well-distribution-tables-well-counts-by-type-and-status/"

/-- URL of the abandoned-wells page. -/
def abandoned_url : String :=
  "https://www.rrc.state.tx.us/oil-gas/research-and-statistics/well-information/orphan-wells-12-months/"

/-- `get_districts()` (lines 189–235).  Only `requests.HTTPError` from the
page fetch is caught (early return).  The pandas `try` block is the
external `districtsTransform`; its bare `except:` logs an error, the
`else` branch logs and writes the CSV. -/
def get_districts (env : Env) : M Unit := fun w =>
  match get_soup env districts_url "districts.html" w with
  | (w1, Except.error PyExc.httpError) => (w1, Except.ok ())
  | (w1, Except.error e) => (w1, Except.error e)
  | (w1, Except.ok soup) =>
    let table_html := env.tableStr soup
    match env.districtsTransform table_html with
    | none =>
      ({ w1 with log := w1.log ++ [LogEntry.error (failedDfMsg districts_url)] },
       Except.ok ())
    | some csv =>
      let w2 := { w1 with log := w1.log ++ [LogEntry.info (successDfMsg districts_url)] }
      let file_path : FsPath := [_DATA_ROOT, "district_codes", "RRC_district_codes.csv"]
      let w3 := _check_parents file_path w2
      let w4 := { w3 with fs := fsWrite w3.fs file_path (FileData.text csv) }
      ({ w4 with log := w4.log ++ [LogEntry.info (savedCsvMsg file_path)] },
       Except.ok ())

/-- Predicate of `rows[0].find_all(...)` in `_get_quarterly_reports`
(lines 265–268): a `td` tag whose `.string` is truthy. -/
def td_with_string (t : Tag) : Bool :=
  if t.name == "td" then
    match t.string with
    | some s => !(s == "")
    | none => false
  else false

/-- `.strip().replace(' ', '_')` applied to tag text (lines 269, 283,
294). -/
def strip_underscore (s : String) : String :=
  String.mk (replaceChar ' ' '_' (pyStrip s.data))

/-- Body of the inner `for index, cell in enumerate(cells)` loop of
`_get_quarterly_reports` (lines 280–286). -/
def quarterlyCell (env : Env) (year_dirs : List FsPath) (index : Nat) (cell : Tag) :
    M Unit := fun w =>
  match env.findIn cell "a" with
  | none => (w, Except.ok ())
  | some a_tag =>
    match a_tag.string with
    | none => (w, Except.error PyExc.attributeError)
    | some s =>
      let filename := strip_underscore s ++ ".pdf"
      match year_dirs.get? index with
      | none => (w, Except.error PyExc.indexError)
      | some ydir =>
        match tagAttr a_tag "href" with
        | none => (w, Except.error PyExc.keyError)
        | some href =>
          get_binary_file env (_BASE_URL ++ href) (ydir ++ [filename]) w

/-- Body of the outer `for row in rows[1:]` loop of
`_get_quarterly_reports` (lines 278–286). -/
def quarterlyRow (env : Env) (year_dirs : List FsPath) (row : Tag) : M Unit :=
  runListIdx (quarterlyCell env year_dirs) 0 (env.findAll row "td")

/-- `_get_quarterly_reports(header)` (lines 259–286). -/
def _get_quarterly_reports (env : Env) (header : Tag) : M Unit := fun w =>
  match env.findNextSibling header with
  | none => (w, Except.error PyExc.attributeError)
  | some table =>
    match env.findAll table "tr" with
    | [] => (w, Except.error PyExc.indexError)
    | row0 :: restRows =>
      let year_tags := (env.descendants row0).filter td_with_string
      let years := year_tags.map (fun yt => strip_underscore (yt.string.getD ""))
      let year_dirs : List FsPath := years.map (fun y => ["cleanup_reports", "quarterly", y])
      runList (quarterlyRow env year_dirs) restRows w

/-- Body of the loop of `_get_annual_reports` (lines 293–297). -/
def annualTag (env : Env) (a_tag : Tag) : M Unit := fun w =>
  match a_tag.string with
  | none => (w, Except.error PyExc.attributeError)
  | some s =>
    let filename := strip_underscore s ++ ".pdf"
    match tagAttr a_tag "href" with
    | none => (w, Except.error PyExc.keyError)
    | some href =>
      get_binary_file env (_BASE_URL ++ href) (["cleanup_reports", "annual", filename]) w

/-- `_get_annual_reports(header)` (lines 289–297). -/
def _get_annual_reports (env : Env) (header : Tag) : M Unit := fun w =>
  match env.findNextSibling header with
  | none => (w, Except.error PyExc.attributeError)
  | some table =>
    runList (annualTag env) (env.findAll table "a") w

/-- `get_cleanup_reports()` (lines 238–251).  Only `requests.HTTPError`
from the page fetch is caught; `soup.find(id=...)` returning `None` makes
the following `.parent` raise `AttributeError`. -/
def get_cleanup_reports (env : Env) : M Unit := fun w =>
  match get_soup env cleanup_url "cleanup_reports.html" w with
  | (w1, Except.error PyExc.httpError) => (w1, Except.ok ())
  | (w1, Except.error e) => (w1, Except.error e)
  | (w1, Except.ok soup) =>
    match env.findById soup "OCP_quarterly" with
    | none => (w1, Except.error PyExc.attributeError)
    | some t1 =>
      match _get_quarterly_reports env (env.tagParent t1) w1 with
      | (w2, Except.error e) => (w2, Except.error e)
      | (w2, Except.ok _) =>
        match env.findById soup "OCP_annual" with
        | none => (w2, Except.error PyExc.attributeError)
        | some t2 =>
          _get_annual_reports env (env.tagParent t2) w2

/-- The sanitization applied by `get_filename` to the chosen element:
`element.strip().replace(' ', '_').replace(',', '')`. -/
def sanitize (e : String) : String :=
  String.mk (dropCharAll ',' (replaceChar ' ' '_' (pyStrip e.data)))

/-- Recursion of `get_filename` over `tag.contents`. -/
def gfGo : List String → Option String
  | [] => none
  | e :: rest =>
    if hasDigit e then some (sanitize e ++ ".pdf")
    else gfGo rest

/-- `get_filename(tag)` (lines 310–314): first member of `tag.contents`
containing a digit, stripped, spaces replaced by underscores, commas
deleted, with `.pdf` appended; `None` when no member contains a digit. -/
def get_filename (tag : Tag) : Option String :=
  gfGo tag.contents

/-- Body of the `for a_tag in a_tags` loop of
`get_well_distribution_reports` (lines 333–347).  When `get_filename`
returns a name without four consecutive digits followed by a period,
`re.search(...).group(1)` is a method call on `None` and raises. -/
def wellDistTag (env : Env) (a_tag : Tag) : M Unit := fun w =>
  match get_filename a_tag with
  | none => (w, Except.ok ())
  | some filename =>
    match yearSearch filename.data with
    | none => (w, Except.error PyExc.attributeError)
    | some year =>
      match tagAttr a_tag "href" with
      | none => (w, Except.error PyExc.keyError)
      | some href =>
        get_binary_file env (_BASE_URL ++ href) (["well_distributions", year, filename]) w

/-- `get_well_distribution_reports()` (lines 300–347). -/
def get_well_distribution_reports (env : Env) : M Unit := fun w =>
  match get_soup env well_dist_url "well_distributions.html" w with
  | (w1, Except.error PyExc.httpError) => (w1, Except.ok ())
  | (w1, Except.error e) => (w1, Except.error e)
  | (w1, Except.ok soup) =>
    match env.soupTable soup with
    | none => (w1, Except.error PyExc.attributeError)
    | some table =>
      runList (wellDistTag env) (env.findAll table "a") w1

/-- `has_excel_string(tag)` (lines 354–358). -/
def has_excel_string (t : Tag) : Bool :=
  match t.string with
  | some s => containsSeq ("excel version".data) ((lowerStr s).data)
  | none => false

/-- `get_abandoned_wells_report()` (lines 350–370).  The filename is the
anchor's `title` attribute used verbatim; `soup.find` returning `None`
makes the subscript raise. -/
def get_abandoned_wells_report (env : Env) : M Unit := fun w =>
  match get_soup env abandoned_url "abandoned_wells.html" w with
  | (w1, Except.error PyExc.httpError) => (w1, Except.ok ())
  | (w1, Except.error e) => (w1, Except.error e)
  | (w1, Except.ok soup) =>
    match (env.soupTags soup).find? has_excel_string with
    | none => (w1, Except.error PyExc.typeError)
    | some a_tag =>
      match tagAttr a_tag "title" with
      | none => (w1, Except.error PyExc.keyError)
      | some filename =>
        match tagAttr a_tag "href" with
        | none => (w1, Except.error PyExc.keyError)
        | some href =>
          get_binary_file env (_BASE_URL ++ href) (["abandoned_wells", filename]) w1

/-! ## Driver (`scrape.py` lines 383–409) -/

/-- `_initialize_logging()` (lines 383–395): creates the data root and
opens `data/scrape.log` with mode `'w'` (creating/truncating it).  The
handler configuration itself has no modelled effect. -/
def init_logging (w : World) : World :=
  let p : FsPath := [_DATA_ROOT, "scrape.log"]
  let w1 := _check_parents p w
  { w1 with fs := fsWrite w1.fs p (FileData.text "") }

/-- Sequencing of two statements of `main`: the second runs only when the
first returns normally. -/
def seqM (m1 m2 : M Unit) : M Unit := fun w =>
  match m1 w with
  | (w1, Except.ok _) => m2 w1
  | (w1, Except.error e) => (w1, Except.error e)

/-- `main()` (lines 402–409): logging setup, then the four routines in
order; an exception escaping a routine aborts the run. -/
def scrape_main (env : Env) : M Unit := fun w =>
  seqM (get_districts env)
    (seqM (get_cleanup_reports env)
      (seqM (get_well_distribution_reports env) (get_abandoned_wells_report env)))
    (init_logging w)

/-! ## The claims under test, stated as the spec states them -/

/-- Transport failure in the sense of claim C1: a network failure or a
non-2xx HTTP response. -/
def transportFails : FetchOutcome → Prop
  | FetchOutcome.networkError => True
  | FetchOutcome.response s _ _ => ¬ (200 ≤ s ∧ s < 300)

/-- Claim C1 as stated: for every URL whose fetch signals a Transport
failure — network failures included — `get_binary_file` returns a skip
outcome (no exception escapes) and writes no filesystem artifact. -/
def claimC1 : Prop :=
  ∀ (env : Env) (url : String) (rp : FsPath) (w : World),
    transportFails (env.net url) →
    (get_binary_file env url rp w).2 = Except.ok () ∧
    (get_binary_file env url rp w).1.fs = w.fs

/-- Claim C2 as stated: whenever the server responds, `_get` succeeds iff
the status is 2xx, and in both the success and the failure case exactly
one pause of `_DELAY` is observed. -/
def claimC2 : Prop :=
  ∀ (env : Env) (url : String) (w : World) (s : Nat) (c : List Nat) (t : String),
    env.net url = FetchOutcome.response s c t →
    ((∃ r, (_get env url w).2 = Except.ok r) ↔ (200 ≤ s ∧ s < 300)) ∧
    (_get env url w).1.pauses = w.pauses ++ [_DELAY]

/-- Claim C3 as stated: a crash of the extraction service is caught inside
`parse_pdf`: no exception propagates out of it and no artifact is written.
-/
def claimC3 : Prop :=
  ∀ (env : Env) (fp : FsPath) (w : World),
    env.tika (pathStr fp) = TikaOutcome.failure →
    (parse_pdf env fp w).2 = Except.ok () ∧ (parse_pdf env fp w).1.fs = w.fs

/-- A sanitized filename in the sense of claim C7: no space, no comma,
and no uppercase letter in the extension. -/
def sanitizedFilename (n : String) : Prop :=
  (¬ (' ' ∈ n.data)) ∧ (¬ (',' ∈ n.data)) ∧
  ((suffixOfName n).data.all (fun ch => !ch.isUpper) = true)

/-- Claim C7 as stated, specialized to the abandoned-wells routine (one of
the two code places the claim cites): every artifact path newly written by
the routine has a filename produced by the stable sanitization — so in
particular without spaces or commas and with a lowercase extension. -/
def claimC7 : Prop :=
  ∀ (env : Env) (w : World) (p : FsPath) (d : FileData),
    fsGet ((get_abandoned_wells_report env w).1.fs) p = some d →
    fsGet w.fs p = some d ∨ sanitizedFilename (lastName p)

/-! ## Concrete collaborators for witnesses and counterexamples -/

/-- Default collaborators: the network always fails at network level, the
extraction service always crashes, navigation finds nothing. -/
def defaultEnv : Env :=
  { net := fun _ => FetchOutcome.networkError,
    tika := fun _ => TikaOutcome.failure,
    parseHtml := fun s => Node.text s,
    prettifySoup := fun _ => "pretty",
    pprintMeta := fun _ => "metadata",
    tableStr := fun _ => "",
    districtsTransform := fun _ => none,
    findById := fun _ _ => none,
    tagParent := fun t => t,
    findNextSibling := fun _ => none,
    findAll := fun _ _ => [],
    descendants := fun _ => [],
    findIn := fun _ _ => none,
    soupTable := fun _ => none,
    soupTags := fun _ => [] }

/-- A server answering every URL with 404 and body `"not found"`. -/
def env404 : Env :=
  { defaultEnv with net := fun _ => FetchOutcome.response 404 [] "not found" }

/-- A server answering every URL with 300 (non-2xx, but not an HTTP error
for `raise_for_status`). -/
def env300 : Env :=
  { defaultEnv with net := fun _ => FetchOutcome.response 300 [1] "redirect" }

/-- A server answering every URL with 200; the extraction service still
crashes (inherited from `defaultEnv`). -/
def env200 : Env :=
  { defaultEnv with net := fun _ => FetchOutcome.response 200 [7] "okbody" }

/-- Extraction service returning metadata and the text `"Hello"`. -/
def envHello : Env :=
  { defaultEnv with
      net := fun _ => FetchOutcome.response 200 [7] "okbody",
      tika := fun _ => TikaOutcome.ok [("Author", "RRC")] (some "Hello") }

/-- Extraction service returning no content. -/
def envNoText : Env :=
  { defaultEnv with
      net := fun _ => FetchOutcome.response 200 [7] "okbody",
      tika := fun _ => TikaOutcome.ok [] none }

/-- The anchor tag of the abandoned-wells page: its visible text mentions
the excel version and its `title` attribute is a raw filename with a
comma, a space and an uppercase extension. -/
def excelTag : Tag :=
  { name := "a",
    string := some "Excel Version",
    contents := [],
    attrs := [("title", "My, File.XLSX"), ("href", "/orphans.xlsx")] }

/-- Environment for the abandoned-wells scenario: every fetch succeeds and
the page contains `excelTag`. -/
def envAbandoned : Env :=
  { defaultEnv with
      net := fun _ => FetchOutcome.response 200 [10, 20] "page",
      soupTags := fun _ => [excelTag] }

/-- An anchor tag whose first digit-bearing content member is
`" Jan 1, 2020 "`. -/
def janTag : Tag :=
  { name := "a", string := none, contents := ["<br/>", " Jan 1, 2020 "], attrs := [] }

/-- An anchor tag whose derived filename `Report_123.pdf` contains digits
but no run of four digits followed by a period. -/
def reportTag : Tag :=
  { name := "a", string := none, contents := ["Report 123"], attrs := [("href", "/x")] }

/-- Environment for the well-distribution scenario: the page fetch
succeeds and the table contains exactly `reportTag`. -/
def envWellDist : Env :=
  { defaultEnv with
      net := fun _ => FetchOutcome.response 200 [] "p",
      soupTable := fun _ => some reportTag,
      findAll := fun _ _ => [reportTag] }

/-! # Helper lemmas -/

/-! ## Strings -/

theorem strMk_append (a b : List Char) : String.mk a ++ String.mk b = String.mk (a ++ b) :=
  rfl

theorem strMk_data (s : String) : String.mk s.data = s :=
  rfl

theorem str_data_append (a b : String) : (a ++ b).data = a.data ++ b.data := by
  cases a
  cases b
  rfl

theorem str_append_right_inj {s a b : String} (h : s ++ a = s ++ b) : a = b := by
  have hd : s.data ++ a.data = s.data ++ b.data := by
    rw [← str_data_append, ← str_data_append, h]
  have h2 : a.data = b.data := List.append_cancel_left hd
  have h3 := congrArg String.mk h2
  rwa [strMk_data, strMk_data] at h3

/-! ## The fs association list -/

theorem fsGet_write_self (fs : List (FsPath × FileData)) (p : FsPath) (d : FileData) :
    fsGet (fsWrite fs p d) p = some d := by
  simp [fsGet, fsWrite, List.find?]

theorem find?_filter_keep (fs : List (FsPath × FileData)) (p q : FsPath) (h : q ≠ p) :
    List.find? (fun e => decide (e.1 = q)) (fs.filter (fun e => decide (e.1 ≠ p))) =
    List.find? (fun e => decide (e.1 = q)) fs := by
  induction fs with
  | nil => rfl
  | cons e rest ih =>
    rw [List.filter_cons]
    by_cases hep : e.1 = p
    · have h2 : e.1 ≠ q := fun hq => h (hq ▸ hep)
      rw [if_neg (by simp [hep]), List.find?_cons_of_neg _ (by simp [h2])]
      exact ih
    · by_cases heq : e.1 = q
      · rw [if_pos (by simp [hep]), List.find?_cons_of_pos _ (by simp [heq]),
          List.find?_cons_of_pos _ (by simp [heq])]
      · rw [if_pos (by simp [hep]), List.find?_cons_of_neg _ (by simp [heq]),
          List.find?_cons_of_neg _ (by simp [heq])]
        exact ih

theorem fsGet_write_ne (fs : List (FsPath × FileData)) (p q : FsPath) (d : FileData)
    (h : q ≠ p) : fsGet (fsWrite fs p d) q = fsGet fs q := by
  have hpq : p ≠ q := fun hq => h hq.symm
  simp only [fsGet, fsWrite]
  rw [List.find?_cons_of_neg _ (by simp [hpq]), find?_filter_keep fs p q h]

/-! ## Paths, stems and suffixes -/

theorem stem_append_suffixOf (n : String) (h : suffixOfName n ≠ "") :
    stemOfName n ++ suffixOfName n = n := by
  unfold suffixOfName stemOfName
  unfold suffixOfName at h
  cases hr : rlastIdx '.' n.data with
  | none =>
    simp only [hr] at h
    exact absurd rfl h
  | some i =>
    simp only [hr] at h ⊢
    by_cases hc : 0 < i ∧ i < n.data.length - 1
    · rw [if_pos hc, if_pos hc, strMk_append, List.take_append_drop]
    · rw [if_neg hc] at h
      exact absurd rfl h

theorem cons_dropLast_lastName (x : String) (xs : List String) :
    (x :: xs).dropLast ++ [lastName (x :: xs)] = x :: xs := by
  induction xs generalizing x with
  | nil => rfl
  | cons y ys ih =>
    have : lastName (x :: y :: ys) = lastName (y :: ys) := rfl
    simp only [List.dropLast, this]
    rw [List.cons_append, ih y]

theorem cons_ne_dropLast_append (x m : String) (xs : List String)
    (h : lastName (x :: xs) ≠ m) : (x :: xs) ≠ (x :: xs).dropLast ++ [m] := by
  intro hc
  have h2 : (x :: xs).dropLast ++ [lastName (x :: xs)] = (x :: xs).dropLast ++ [m] :=
    (cons_dropLast_lastName x xs).trans hc
  have h3 : [lastName (x :: xs)] = [m] := List.append_cancel_left h2
  exact h (by injection h3)

theorem name_ne_artifacts (nm : String) (h : suffixOfName nm = ".pdf") :
    nm ≠ stemOfName nm ++ "_metadata.txt" ∧ nm ≠ stemOfName nm ++ "_parsed.txt" := by
  have hne : suffixOfName nm ≠ "" := by rw [h]; decide
  have hstem : stemOfName nm ++ ".pdf" = nm := by
    have := stem_append_suffixOf nm hne
    rwa [h] at this
  constructor
  · intro hc
    have : (".pdf" : String) = "_metadata.txt" := str_append_right_inj (hstem.trans hc)
    exact absurd this (by decide)
  · intro hc
    have : (".pdf" : String) = "_parsed.txt" := str_append_right_inj (hstem.trans hc)
    exact absurd this (by decide)

/-! ## Sanitization -/

theorem replaceChar_eq_map (c r : Char) (l : List Char) :
    replaceChar c r l = l.map (fun x => if x = c then r else x) := by
  induction l with
  | nil => rfl
  | cons x xs ih => simp [replaceChar, ih]

theorem sanitize_no_space (e : String) : ' ' ∉ (sanitize e).data := by
  intro hmem
  simp only [sanitize, strMk_data] at hmem
  have h1 : ' ' ∈ replaceChar ' ' '_' (pyStrip e.data) := by
    have := List.mem_filter.mp hmem
    exact this.1
  rw [replaceChar_eq_map] at h1
  obtain ⟨y, _, hy⟩ := List.mem_map.mp h1
  by_cases hys : y = ' '
  · rw [if_pos hys] at hy; exact absurd hy (by decide)
  · rw [if_neg hys] at hy; exact hys hy

theorem sanitize_no_comma (e : String) : ',' ∉ (sanitize e).data := by
  intro hmem
  simp only [sanitize, strMk_data] at hmem
  have := (List.mem_filter.mp hmem).2
  simp at this

theorem gfGo_eq {l : List String} {fn : String} (h : gfGo l = some fn) :
    ∃ e, e ∈ l ∧ hasDigit e = true ∧ fn = sanitize e ++ ".pdf" := by
  induction l with
  | nil => simp [gfGo] at h
  | cons e rest ih =>
    by_cases hd : hasDigit e = true
    · refine ⟨e, List.mem_cons_self e rest, hd, ?_⟩
      simp only [gfGo, hd, if_true, Option.some.injEq] at h
      exact h.symm
    · simp only [gfGo, hd, if_false, Bool.false_eq_true] at h
      obtain ⟨x, hx, hdx, he⟩ := ih h
      exact ⟨x, List.mem_cons_of_mem e hx, hdx, he⟩

/-! ## Equations for the fetch layer -/

theorem _get_net {env : Env} {url : String} {w : World}
    (hnet : env.net url = FetchOutcome.networkError) :
    _get env url w = (w, Except.error PyExc.connectionError) := by
  simp only [_get, hnet]

theorem _get_fail {env : Env} {url : String} {w : World} {s : Nat} {c : List Nat} {t : String}
    (hnet : env.net url = FetchOutcome.response s c t) (h4 : 400 ≤ s) (h6 : s < 600) :
    _get env url w =
      ({ w with log := w.log ++ [LogEntry.error (failMsg url t)] },
       Except.error PyExc.httpError) := by
  simp only [_get, hnet]
  rw [if_pos (And.intro h4 h6)]

theorem _get_ok {env : Env} {url : String} {w : World} {s : Nat} {c : List Nat} {t : String}
    (hnet : env.net url = FetchOutcome.response s c t) (hns : ¬ (400 ≤ s ∧ s < 600)) :
    _get env url w =
      ({ w with
          log := w.log ++ [LogEntry.info (successMsg url)],
          pauses := w.pauses ++ [_DELAY] },
       Except.ok (FetchOutcome.response s c t)) := by
  simp only [_get, hnet]
  rw [if_neg hns]

theorem get_html_string_fail {env : Env} {url : String} {w : World} {s : Nat}
    {c : List Nat} {t : String}
    (hnet : env.net url = FetchOutcome.response s c t) (h4 : 400 ≤ s) (h6 : s < 600) :
    get_html_string env url w =
      ({ w with log := w.log ++ [LogEntry.error (failMsg url t)] },
       Except.error PyExc.httpError) := by
  simp only [get_html_string, _get_fail hnet h4 h6]

theorem get_html_string_ok {env : Env} {url : String} {w : World} {s : Nat}
    {c : List Nat} {t : String}
    (hnet : env.net url = FetchOutcome.response s c t) (hns : ¬ (400 ≤ s ∧ s < 600)) :
    get_html_string env url w =
      ({ w with
          log := w.log ++ [LogEntry.info (successMsg url)],
          pauses := w.pauses ++ [_DELAY] },
       Except.ok t) := by
  simp only [get_html_string, _get_ok hnet hns, respText]

theorem get_soup_fail {env : Env} {url fn : String} {w : World} {s : Nat}
    {c : List Nat} {t : String}
    (hnet : env.net url = FetchOutcome.response s c t) (h4 : 400 ≤ s) (h6 : s < 600) :
    get_soup env url fn w =
      ({ w with log := w.log ++ [LogEntry.error (failMsg url t)] },
       Except.error PyExc.httpError) := by
  simp only [get_soup, get_html_string_fail hnet h4 h6]

theorem get_soup_ok {env : Env} {url fn : String} {w : World} {s : Nat}
    {c : List Nat} {t : String}
    (hnet : env.net url = FetchOutcome.response s c t) (hns : ¬ (400 ≤ s ∧ s < 600)) :
    get_soup env url fn w =
      ({ w with
          log := w.log ++ [LogEntry.info (successMsg url)],
          pauses := w.pauses ++ [_DELAY],
          dirs := w.dirs ++ ancestorsOf [_DATA_ROOT, _SAVED_PAGES],
          fs := fsWrite w.fs [_DATA_ROOT, _SAVED_PAGES, fn]
                  (FileData.text (env.prettifySoup (env.parseHtml t))) },
       Except.ok (env.parseHtml t)) := by
  simp only [get_soup, get_html_string_ok hnet hns, _check_parents]
  rfl

/-! ## Equations for `parse_pdf` -/

theorem parse_pdf_crash {env : Env} {fp : FsPath} {w : World}
    (h : env.tika (pathStr fp) = TikaOutcome.failure) :
    parse_pdf env fp w =
      ({ w with log := w.log ++ [LogEntry.info (attemptMsg fp)] },
       Except.error PyExc.tikaError) := by
  simp only [parse_pdf, h]

theorem parse_pdf_none {env : Env} {fp : FsPath} {w : World} {md : List (String × String)}
    (h : env.tika (pathStr fp) = TikaOutcome.ok md none) :
    parse_pdf env fp w =
      ({ w with log := w.log ++ [LogEntry.info (attemptMsg fp),
                                 LogEntry.info (noContentMsg fp)] },
       Except.ok ()) := by
  simp only [parse_pdf, h]
  simp [List.append_assoc]

theorem parse_pdf_empty {env : Env} {fp : FsPath} {w : World} {md : List (String × String)}
    (h : env.tika (pathStr fp) = TikaOutcome.ok md (some "")) :
    parse_pdf env fp w =
      ({ w with log := w.log ++ [LogEntry.info (attemptMsg fp),
                                 LogEntry.info (noContentMsg fp)] },
       Except.ok ()) := by
  simp only [parse_pdf, h]
  simp [List.append_assoc]

theorem parse_pdf_write {env : Env} {fp : FsPath} {w : World} {md : List (String × String)}
    {s : String} (h : env.tika (pathStr fp) = TikaOutcome.ok md (some s)) (hs : s ≠ "") :
    parse_pdf env fp w =
      ({ w with
          log := w.log ++ [LogEntry.info (attemptMsg fp),
                           LogEntry.info (savedParsedMsg (contentPath fp))],
          fs := fsWrite (fsWrite w.fs (metaPath fp) (FileData.text (env.pprintMeta md)))
                  (contentPath fp) (FileData.text s) },
       Except.ok ()) := by
  simp only [parse_pdf, h]
  rw [if_neg hs]
  simp [List.append_assoc]

/-! ## Equations for `get_binary_file` -/

theorem gbf_net {env : Env} {url : String} {rp : FsPath} {w : World}
    (hnet : env.net url = FetchOutcome.networkError) :
    get_binary_file env url rp w = (w, Except.error PyExc.connectionError) := by
  simp only [get_binary_file, _get_net hnet]

theorem gbf_http_skip {env : Env} {url : String} {rp : FsPath} {w : World} {s : Nat}
    {c : List Nat} {t : String}
    (hnet : env.net url = FetchOutcome.response s c t) (h4 : 400 ≤ s) (h6 : s < 600) :
    get_binary_file env url rp w =
      ({ w with log := w.log ++ [LogEntry.error (failMsg url t)] }, Except.ok ()) := by
  simp only [get_binary_file, _get_fail hnet h4 h6]

theorem gbf_ok_pdf {env : Env} {url : String} {rp : FsPath} {w : World} {s : Nat}
    {c : List Nat} {t : String}
    (hnet : env.net url = FetchOutcome.response s c t) (hns : ¬ (400 ≤ s ∧ s < 600))
    (hsuf : pathSuffix (_DATA_ROOT :: rp) = ".pdf") :
    get_binary_file env url rp w = parse_pdf env (_DATA_ROOT :: rp) (savedWorld url rp c w) := by
  simp only [get_binary_file, _get_ok hnet hns, respContent, _check_parents, savedWorld]
  rw [if_pos hsuf]
  simp [List.append_assoc]

theorem gbf_ok_nonpdf {env : Env} {url : String} {rp : FsPath} {w : World} {s : Nat}
    {c : List Nat} {t : String}
    (hnet : env.net url = FetchOutcome.response s c t) (hns : ¬ (400 ≤ s ∧ s < 600))
    (hsuf : pathSuffix (_DATA_ROOT :: rp) ≠ ".pdf") :
    get_binary_file env url rp w = (savedWorld url rp c w, Except.ok ()) := by
  simp only [get_binary_file, _get_ok hnet hns, respContent, _check_parents, savedWorld]
  rw [if_neg hsuf]
  simp [List.append_assoc]

/-! ## Failure equations for the four report routines -/

theorem get_districts_fail {env : Env} {w : World} {s : Nat} {c : List Nat} {t : String}
    (hnet : env.net districts_url = FetchOutcome.response s c t)
    (h4 : 400 ≤ s) (h6 : s < 600) :
    get_districts env w =
      ({ w with log := w.log ++ [LogEntry.error (failMsg districts_url t)] },
       Except.ok ()) := by
  simp only [get_districts, get_soup_fail hnet h4 h6]

theorem get_cleanup_reports_fail {env : Env} {w : World} {s : Nat} {c : List Nat} {t : String}
    (hnet : env.net cleanup_url = FetchOutcome.response s c t)
    (h4 : 400 ≤ s) (h6 : s < 600) :
    get_cleanup_reports env w =
      ({ w with log := w.log ++ [LogEntry.error (failMsg cleanup_url t)] },
       Except.ok ()) := by
  simp only [get_cleanup_reports, get_soup_fail hnet h4 h6]

theorem get_well_distribution_reports_fail {env : Env} {w : World} {s : Nat}
    {c : List Nat} {t : String}
    (hnet : env.net well_dist_url = FetchOutcome.response s c t)
    (h4 : 400 ≤ s) (h6 : s < 600) :
    get_well_distribution_reports env w =
      ({ w with log := w.log ++ [LogEntry.error (failMsg well_dist_url t)] },
       Except.ok ()) := by
  simp only [get_well_distribution_reports, get_soup_fail hnet h4 h6]

theorem get_abandoned_wells_report_fail {env : Env} {w : World} {s : Nat}
    {c : List Nat} {t : String}
    (hnet : env.net abandoned_url = FetchOutcome.response s c t)
    (h4 : 400 ≤ s) (h6 : s < 600) :
    get_abandoned_wells_report env w =
      ({ w with log := w.log ++ [LogEntry.error (failMsg abandoned_url t)] },
       Except.ok ()) := by
  simp only [get_abandoned_wells_report, get_soup_fail hnet h4 h6]

/-! # Claims -/

/-- C1 (counterexample).  The claim "get_binary_file returns a skip
outcome for EVERY Transport failure, including network failures" is false
on the code: `get_binary_file` catches only `requests.HTTPError`, so a
network-level failure (`ConnectionError`) raises past its boundary. -/
theorem C1_counterexample : ¬ claimC1 := by
  intro h
  have h1 := (h defaultEnv "u" ["f.bin"] emptyWorld trivial).1
  exact absurd h1 (by decide)

/-- C1 (amended).  For every URL whose fetch raises `requests.HTTPError`
(an HTTP response with status in [400, 600)), `get_binary_file` returns a
skip outcome — no exception escapes — and writes no filesystem artifact
for that URL; a network-level failure instead propagates out of
`get_binary_file` (see the counterexample). -/
theorem C1_retriever_skips_http_failure (env : Env) (url : String) (rp : FsPath)
    (w : World) (s : Nat) (c : List Nat) (t : String)
    (hnet : env.net url = FetchOutcome.response s c t) (h4 : 400 ≤ s) (h6 : s < 600) :
    get_binary_file env url rp w =
      ({ w with log := w.log ++ [LogEntry.error (failMsg url t)] }, Except.ok ()) :=
  gbf_http_skip hnet h4 h6

/-- C1 witness: a 404 on a concrete URL yields the skip outcome with only
an error log entry, with no file written. -/
theorem C1_retriever_skips_http_failure_witness :
    get_binary_file env404 "u" ["f.pdf"] emptyWorld =
      ({ emptyWorld with log := [LogEntry.error (failMsg "u" "not found")] },
       Except.ok ()) :=
  C1_retriever_skips_http_failure env404 "u" ["f.pdf"] emptyWorld 404 [] "not found"
    rfl (by decide) (by decide)

/-- C2 (counterexample).  The claim that exactly one `_DELAY` pause is
observed in the failure case as well is false: on an HTTP 404 `_get`
raises before reaching `time.sleep`, so no pause is observed.  Moreover
success is not "iff 2xx": a 300 response does not raise
(`raise_for_status` raises only for [400, 600)), as the second conjunct
shows. -/
theorem C2_counterexample :
    ¬ claimC2 ∧
    (_get env300 "u" emptyWorld).2 = Except.ok (FetchOutcome.response 300 [1] "redirect") := by
  constructor
  · intro h
    have h2 := (h env404 "u" emptyWorld 404 [] "not found" rfl).2
    exact absurd h2 (by decide)
  · rfl

/-- C2 (amended).  When the server responds, `_get` raises iff the status
is in [400, 600) (the `raise_for_status` range): on failure it logs the
error and raises with NO pause; otherwise it logs the success and observes
exactly one pause of the fixed `_DELAY` (5 time-units) before returning. -/
theorem C2_transport_delay (env : Env) (url : String) (w : World) (s : Nat)
    (c : List Nat) (t : String)
    (hnet : env.net url = FetchOutcome.response s c t) :
    ((400 ≤ s ∧ s < 600) →
      _get env url w =
        ({ w with log := w.log ++ [LogEntry.error (failMsg url t)] },
         Except.error PyExc.httpError)) ∧
    (¬ (400 ≤ s ∧ s < 600) →
      _get env url w =
        ({ w with
            log := w.log ++ [LogEntry.info (successMsg url)],
            pauses := w.pauses ++ [_DELAY] },
         Except.ok (FetchOutcome.response s c t))) :=
  ⟨fun hc => _get_fail hnet hc.1 hc.2, fun hc => _get_ok hnet hc⟩

/-- C2 witness: a 404 raises with no pause recorded; a 200 returns with
exactly the pause `[5]` recorded. -/
theorem C2_transport_delay_witness :
    _get env404 "u" emptyWorld =
      ({ emptyWorld with log := [LogEntry.error (failMsg "u" "not found")] },
       Except.error PyExc.httpError) ∧
    _get env200 "u" emptyWorld =
      ({ emptyWorld with log := [LogEntry.info (successMsg "u")], pauses := [_DELAY] },
       Except.ok (FetchOutcome.response 200 [7] "okbody")) :=
  ⟨(C2_transport_delay env404 "u" emptyWorld 404 [] "not found" rfl).1 (by decide),
   (C2_transport_delay env200 "u" emptyWorld 200 [7] "okbody" rfl).2 (by decide)⟩

/-- C3 (counterexample).  The claim that an extraction-service failure is
caught inside `parse_pdf` is false on the code: `parse_pdf` has no
try/except, so a crash of `tika.parser.from_file` propagates out. -/
theorem C3_counterexample : ¬ claimC3 := by
  intro h
  have h1 := (h env200 ["data", "x.pdf"] emptyWorld rfl).1
  exact absurd h1 (by decide)

/-- C3 (amended).  A failure of the external extraction service during
`parse_pdf` is logged only as the preceding attempt line and then
PROPAGATES out of `parse_pdf` (aborting the enclosing run, since no caller
catches it); no artifact is written in that case. -/
theorem C3_extractor_crash_propagates (env : Env) (fp : FsPath) (w : World)
    (h : env.tika (pathStr fp) = TikaOutcome.failure) :
    parse_pdf env fp w =
      ({ w with log := w.log ++ [LogEntry.info (attemptMsg fp)] },
       Except.error PyExc.tikaError) :=
  parse_pdf_crash h

/-- C3 witness: a concrete crash, with the world showing no write. -/
theorem C3_extractor_crash_propagates_witness :
    parse_pdf env200 ["data", "x.pdf"] emptyWorld =
      ({ emptyWorld with log := [LogEntry.info (attemptMsg ["data", "x.pdf"])] },
       Except.error PyExc.tikaError) :=
  C3_extractor_crash_propagates env200 ["data", "x.pdf"] emptyWorld rfl

/-- C4.  For every report-extraction routine, an HTTP failure
(`requests.HTTPError`, e.g. a 404) while fetching that routine's top-level
page aborts only that routine: the routine catches the failure and returns
early with exactly one error log entry — the Transport message containing
the URL — and no filesystem write (in particular zero CSV artifacts for
the districts routine, whose only write is the CSV).  The driver `main`
then proceeds through all four routines and completes the run. -/
theorem C4_failure_isolation (env : Env) (w : World)
    (s1 s2 s3 s4 : Nat) (c1 c2 c3 c4 : List Nat) (t1 t2 t3 t4 : String)
    (h1 : env.net districts_url = FetchOutcome.response s1 c1 t1)
    (h1a : 400 ≤ s1) (h1b : s1 < 600)
    (h2 : env.net cleanup_url = FetchOutcome.response s2 c2 t2)
    (h2a : 400 ≤ s2) (h2b : s2 < 600)
    (h3 : env.net well_dist_url = FetchOutcome.response s3 c3 t3)
    (h3a : 400 ≤ s3) (h3b : s3 < 600)
    (h4 : env.net abandoned_url = FetchOutcome.response s4 c4 t4)
    (h4a : 400 ≤ s4) (h4b : s4 < 600) :
    get_districts env w =
      ({ w with log := w.log ++ [LogEntry.error (failMsg districts_url t1)] },
       Except.ok ()) ∧
    get_cleanup_reports env w =
      ({ w with log := w.log ++ [LogEntry.error (failMsg cleanup_url t2)] },
       Except.ok ()) ∧
    get_well_distribution_reports env w =
      ({ w with log := w.log ++ [LogEntry.error (failMsg well_dist_url t3)] },
       Except.ok ()) ∧
    get_abandoned_wells_report env w =
      ({ w with log := w.log ++ [LogEntry.error (failMsg abandoned_url t4)] },
       Except.ok ()) ∧
    StrContains (failMsg districts_url t1) districts_url ∧
    scrape_main env w =
      ({ init_logging w with
          log := (init_logging w).log ++
            [LogEntry.error (failMsg districts_url t1),
             LogEntry.error (failMsg cleanup_url t2),
             LogEntry.error (failMsg well_dist_url t3),
             LogEntry.error (failMsg abandoned_url t4)] },
       Except.ok ()) := by
  refine ⟨get_districts_fail h1 h1a h1b, get_cleanup_reports_fail h2 h2a h2b,
    get_well_distribution_reports_fail h3 h3a h3b,
    get_abandoned_wells_report_fail h4 h4a h4b,
    ⟨"Failed to download\n", "\n\nHTTP response:\n\n" ++ (t1 ++ "\n"), rfl⟩, ?_⟩
  simp only [scrape_main, seqM, get_districts_fail h1 h1a h1b,
    get_cleanup_reports_fail h2 h2a h2b,
    get_well_distribution_reports_fail h3 h3a h3b,
    get_abandoned_wells_report_fail h4 h4a h4b]
  simp [List.append_assoc]

/-- C4 witness: with a server answering 404 everywhere, the districts
routine returns the skip outcome with one error entry and the whole driver
completes with the four error entries and no artifact beyond the log file
created by logging setup. -/
theorem C4_failure_isolation_witness :
    get_districts env404 emptyWorld =
      ({ emptyWorld with log := [LogEntry.error (failMsg districts_url "not found")] },
       Except.ok ()) ∧
    scrape_main env404 emptyWorld =
      ({ init_logging emptyWorld with
          log := [LogEntry.error (failMsg districts_url "not found"),
                  LogEntry.error (failMsg cleanup_url "not found"),
                  LogEntry.error (failMsg well_dist_url "not found"),
                  LogEntry.error (failMsg abandoned_url "not found")] },
       Except.ok ()) := by
  have h := C4_failure_isolation env404 emptyWorld 404 404 404 404 [] [] [] []
    "not found" "not found" "not found" "not found"
    rfl (by decide) (by decide) rfl (by decide) (by decide)
    rfl (by decide) (by decide) rfl (by decide) (by decide)
  exact ⟨h.1, h.2.2.2.2.2⟩

/-- C5.  For every input file handed to `parse_pdf` on which the
extraction service returns a result: if the extracted content is empty
(`None` or the empty string), no metadata or content artifact is written
and the call completes without raising; if it is non-empty, exactly the
two sibling artifacts `stem + "_metadata.txt"` and `stem + "_parsed.txt"`
are written next to the source file and the content artifact's contents
equal the extracted text exactly. -/
theorem C5_extractor_artifacts (env : Env) (fp : FsPath) (w : World)
    (md : List (String × String)) (content : Option String)
    (h : env.tika (pathStr fp) = TikaOutcome.ok md content) :
    ((content = none ∨ content = some "") →
      parse_pdf env fp w =
        ({ w with log := w.log ++ [LogEntry.info (attemptMsg fp),
                                   LogEntry.info (noContentMsg fp)] },
         Except.ok ())) ∧
    (∀ s, content = some s → s ≠ "" →
      parse_pdf env fp w =
        ({ w with
            log := w.log ++ [LogEntry.info (attemptMsg fp),
                             LogEntry.info (savedParsedMsg (contentPath fp))],
            fs := fsWrite (fsWrite w.fs (metaPath fp) (FileData.text (env.pprintMeta md)))
                    (contentPath fp) (FileData.text s) },
         Except.ok ())) := by
  constructor
  · intro hc
    cases hc with
    | inl hn => exact parse_pdf_none (hn ▸ h)
    | inr he => exact parse_pdf_empty (he ▸ h)
  · intro s hs hne
    exact parse_pdf_write (hs ▸ h) hne

/-- C5 witness: extracted text `"Hello"` produces the two artifacts with
the content artifact holding exactly `"Hello"`; an extraction with no
content writes nothing and returns normally. -/
theorem C5_extractor_artifacts_witness :
    parse_pdf envHello ["data", "Fiscal_Year_2019.pdf"] emptyWorld =
      ({ emptyWorld with
          log := [LogEntry.info (attemptMsg ["data", "Fiscal_Year_2019.pdf"]),
                  LogEntry.info (savedParsedMsg (contentPath ["data", "Fiscal_Year_2019.pdf"]))],
          fs := fsWrite (fsWrite emptyWorld.fs (metaPath ["data", "Fiscal_Year_2019.pdf"])
                          (FileData.text (envHello.pprintMeta [("Author", "RRC")])))
                  (contentPath ["data", "Fiscal_Year_2019.pdf"]) (FileData.text "Hello") },
       Except.ok ()) ∧
    parse_pdf envNoText ["data", "empty.pdf"] emptyWorld =
      ({ emptyWorld with
          log := [LogEntry.info (attemptMsg ["data", "empty.pdf"]),
                  LogEntry.info (noContentMsg ["data", "empty.pdf"])] },
       Except.ok ()) :=
  ⟨(C5_extractor_artifacts envHello ["data", "Fiscal_Year_2019.pdf"] emptyWorld
      [("Author", "RRC")] (some "Hello") rfl).2 "Hello" rfl (by decide),
   (C5_extractor_artifacts envNoText ["data", "empty.pdf"] emptyWorld
      [] none rfl).1 (Or.inl rfl)⟩

/-- C6.  For every successful fetch, `get_soup` parses the html into a
tree, writes the prettified serialization of that tree under the fixed
`data/saved_pages` directory with the given save name (creating the parent
directories), and returns `parseHtml` applied to the ORIGINAL html text —
not a document re-parsed from the prettified form (the returned value is
`env.parseHtml t` for every parser, even those for which re-parsing the
pretty form would differ).  On fetch failure, the failure propagates to
the caller. -/
theorem C6_page_store (env : Env) (url fn : String) (w : World) (s : Nat)
    (c : List Nat) (t : String)
    (hnet : env.net url = FetchOutcome.response s c t) :
    (¬ (400 ≤ s ∧ s < 600) →
      get_soup env url fn w =
        ({ w with
            log := w.log ++ [LogEntry.info (successMsg url)],
            pauses := w.pauses ++ [_DELAY],
            dirs := w.dirs ++ ancestorsOf [_DATA_ROOT, _SAVED_PAGES],
            fs := fsWrite w.fs [_DATA_ROOT, _SAVED_PAGES, fn]
                    (FileData.text (env.prettifySoup (env.parseHtml t))) },
         Except.ok (env.parseHtml t))) ∧
    ((400 ≤ s ∧ s < 600) →
      get_soup env url fn w =
        ({ w with log := w.log ++ [LogEntry.error (failMsg url t)] },
         Except.error PyExc.httpError)) :=
  ⟨fun hns => get_soup_ok hnet hns, fun hc => get_soup_fail hnet hc.1 hc.2⟩

/-- C6 witness: a concrete 200 fetch, showing the returned tree is the
parse of the original body `"okbody"` while the saved page holds the
prettified serialization. -/
theorem C6_page_store_witness :
    get_soup env200 "u" "f.html" emptyWorld =
      ({ emptyWorld with
          log := [LogEntry.info (successMsg "u")],
          pauses := [_DELAY],
          dirs := ancestorsOf [_DATA_ROOT, _SAVED_PAGES],
          fs := fsWrite emptyWorld.fs [_DATA_ROOT, _SAVED_PAGES, "f.html"]
                  (FileData.text (env200.prettifySoup (env200.parseHtml "okbody"))) },
       Except.ok (env200.parseHtml "okbody")) :=
  (C6_page_store env200 "u" "f.html" emptyWorld 200 [7] "okbody" rfl).1 (by decide)

/-- C7 (counterexample).  The claim that every artifact filename built by
the pipeline goes through the space/comma/lowercase-extension
sanitization is false: `get_abandoned_wells_report` uses the anchor's
`title` attribute verbatim, so a run persists an artifact named
`"My, File.XLSX"` — with a space, a comma and an uppercase extension. -/
theorem C7_counterexample : ¬ claimC7 := by
  intro h
  have h1 := h envAbandoned emptyWorld ["data", "abandoned_wells", "My, File.XLSX"]
    (FileData.binary [10, 20]) (by decide)
  cases h1 with
  | inl hold => exact absurd hold (by decide)
  | inr hsan => exact hsan.1 (by decide)

/-- C7 (amended).  The sanitization the claim describes is the one
performed by `get_filename` in the well-distribution routine: every
filename it derives comes from the first digit-bearing element of the
anchor's contents by strip, spaces→underscores, comma removal, and the
lowercase extension `".pdf"` appended — hence it contains no space and no
comma — and the derivation is a pure function of the tag, so deriving
twice from the same text yields the same string.  The other routines do
NOT apply this sanitization (the abandoned-wells filename is the raw
`title` attribute; quarterly/annual cleanup filenames keep commas). -/
theorem C7_get_filename_sanitizes (tag : Tag) (fn : String)
    (h : get_filename tag = some fn) :
    (∃ e, e ∈ tag.contents ∧ hasDigit e = true ∧ fn = sanitize e ++ ".pdf") ∧
    (' ' ∉ fn.data) ∧ (',' ∉ fn.data) := by
  obtain ⟨e, he, hd, hfn⟩ := gfGo_eq h
  refine ⟨⟨e, he, hd, hfn⟩, ?_, ?_⟩
  · intro hmem
    rw [hfn, str_data_append] at hmem
    cases List.mem_append.mp hmem with
    | inl hl => exact sanitize_no_space e hl
    | inr hr => exact absurd hr (by decide)
  · intro hmem
    rw [hfn, str_data_append] at hmem
    cases List.mem_append.mp hmem with
    | inl hl => exact sanitize_no_comma e hl
    | inr hr => exact absurd hr (by decide)

/-- C7 witness: the tag with contents `" Jan 1, 2020 "` yields the
sanitized name `"Jan_1_2020.pdf"`. -/
theorem C7_get_filename_sanitizes_witness :
    (∃ e, e ∈ janTag.contents ∧ hasDigit e = true ∧
      "Jan_1_2020.pdf" = sanitize e ++ ".pdf") ∧
    (' ' ∉ "Jan_1_2020.pdf".data) ∧ (',' ∉ "Jan_1_2020.pdf".data) :=
  C7_get_filename_sanitizes janTag "Jan_1_2020.pdf" (by decide)

/-- C8.  For every successful binary retrieval, `get_binary_file` invokes
`parse_pdf` synchronously on the freshly saved file — continuing from the
post-save world — if and only if the resolved save path's suffix is
exactly `".pdf"`; for any other suffix it returns right after the save. -/
theorem C8_pdf_dispatch (env : Env) (url : String) (rp : FsPath) (w : World)
    (s : Nat) (c : List Nat) (t : String)
    (hnet : env.net url = FetchOutcome.response s c t) (hns : ¬ (400 ≤ s ∧ s < 600)) :
    (pathSuffix (_DATA_ROOT :: rp) = ".pdf" →
      get_binary_file env url rp w =
        parse_pdf env (_DATA_ROOT :: rp) (savedWorld url rp c w)) ∧
    (pathSuffix (_DATA_ROOT :: rp) ≠ ".pdf" →
      get_binary_file env url rp w = (savedWorld url rp c w, Except.ok ())) :=
  ⟨fun hsuf => gbf_ok_pdf hnet hns hsuf,
   fun hsuf => gbf_ok_nonpdf hnet hns hsuf⟩

/-- C8 witness: a `.pdf` save hands off to `parse_pdf`; a `.xlsx` save
returns directly after the save. -/
theorem C8_pdf_dispatch_witness :
    get_binary_file env200 "u" ["r.pdf"] emptyWorld =
      parse_pdf env200 ["data", "r.pdf"] (savedWorld "u" ["r.pdf"] [7] emptyWorld) ∧
    get_binary_file env200 "u" ["f.xlsx"] emptyWorld =
      (savedWorld "u" ["f.xlsx"] [7] emptyWorld, Except.ok ()) :=
  ⟨(C8_pdf_dispatch env200 "u" ["r.pdf"] emptyWorld 200 [7] "okbody" rfl
      (by decide)).1 (by decide),
   (C8_pdf_dispatch env200 "u" ["f.xlsx"] emptyWorld 200 [7] "okbody" rfl
      (by decide)).2 (by decide)⟩

/-- C9.  In `get_well_distribution_reports`, an anchor whose derived
filename is non-`None` but contains no four consecutive digits followed
immediately by a period makes `re.search(r'(\d{4})\.', filename).group(1)`
a method call on `None`: the routine raises and aborts. -/
theorem C9_year_regex_crash (env : Env) (w : World) (s : Nat) (c : List Nat)
    (t : String) (table a_tag : Tag) (rest : List Tag) (fn : String)
    (hnet : env.net well_dist_url = FetchOutcome.response s c t)
    (hns : ¬ (400 ≤ s ∧ s < 600))
    (htab : env.soupTable (env.parseHtml t) = some table)
    (has : env.findAll table "a" = a_tag :: rest)
    (hfn : get_filename a_tag = some fn)
    (hyr : yearSearch fn.data = none) :
    (get_well_distribution_reports env w).2 = Except.error PyExc.attributeError := by
  simp only [get_well_distribution_reports, get_soup_ok hnet hns, htab, has,
    runList, wellDistTag, hfn, hyr]

/-- C9 witness: the concrete anchor with text `"Report 123"` derives
`"Report_123.pdf"` (digits present, no four-digit year before a dot) and
the routine aborts with the attribute error. -/
theorem C9_year_regex_crash_witness :
    (get_well_distribution_reports envWellDist emptyWorld).2 =
      Except.error PyExc.attributeError :=
  C9_year_regex_crash envWellDist emptyWorld 200 [] "p" reportTag reportTag []
    "Report_123.pdf" rfl (by decide) rfl rfl (by decide) (by decide)

/-- C10.  For every successful fetch in `get_binary_file`, the binary
payload is on disk at the resolved path and its save is logged before any
extraction output appears in the log; and whatever the extraction service
then does — succeed, find no text, or crash — the saved binary artifact is
still present unmodified in the final world. -/
theorem C10_save_precedes_extraction (env : Env) (url : String) (rp : FsPath)
    (w : World) (s : Nat) (c : List Nat) (t : String)
    (hnet : env.net url = FetchOutcome.response s c t) (hns : ¬ (400 ≤ s ∧ s < 600)) :
    ∃ rest, (get_binary_file env url rp w).1.log =
        w.log ++ [LogEntry.info (successMsg url),
                  LogEntry.info (savedBinaryMsg (_DATA_ROOT :: rp))] ++ rest ∧
      fsGet (get_binary_file env url rp w).1.fs (_DATA_ROOT :: rp) =
        some (FileData.binary c) := by
  by_cases hsuf : pathSuffix (_DATA_ROOT :: rp) = ".pdf"
  case neg =>
    refine ⟨[], ?_, ?_⟩
    · rw [gbf_ok_nonpdf hnet hns hsuf]
      simp [savedWorld]
    · rw [gbf_ok_nonpdf hnet hns hsuf]
      simp [savedWorld, fsGet_write_self]
  case pos =>
    have hmeta := (name_ne_artifacts (lastName (_DATA_ROOT :: rp)) hsuf).1
    have hparsed := (name_ne_artifacts (lastName (_DATA_ROOT :: rp)) hsuf).2
    have hm : (_DATA_ROOT :: rp) ≠ metaPath (_DATA_ROOT :: rp) := by
      have h2 := cons_ne_dropLast_append _DATA_ROOT
        (stemOfName (lastName (_DATA_ROOT :: rp)) ++ "_metadata.txt") rp hmeta
      simpa [metaPath] using h2
    have hp : (_DATA_ROOT :: rp) ≠ contentPath (_DATA_ROOT :: rp) := by
      have h2 := cons_ne_dropLast_append _DATA_ROOT
        (stemOfName (lastName (_DATA_ROOT :: rp)) ++ "_parsed.txt") rp hparsed
      simpa [contentPath] using h2
    rw [gbf_ok_pdf hnet hns hsuf]
    cases htika : env.tika (pathStr (_DATA_ROOT :: rp)) with
    | failure =>
      rw [parse_pdf_crash htika]
      refine ⟨[LogEntry.info (attemptMsg (_DATA_ROOT :: rp))], ?_, ?_⟩
      · simp [savedWorld, List.append_assoc]
      · simp [savedWorld, fsGet_write_self]
    | ok md content =>
      cases content with
      | none =>
        rw [parse_pdf_none htika]
        refine ⟨[LogEntry.info (attemptMsg (_DATA_ROOT :: rp)),
                 LogEntry.info (noContentMsg (_DATA_ROOT :: rp))], ?_, ?_⟩
        · simp [savedWorld, List.append_assoc]
        · simp [savedWorld, fsGet_write_self]
      | some str =>
        by_cases hstr : str = ""
        · rw [hstr] at htika
          rw [parse_pdf_empty htika]
          refine ⟨[LogEntry.info (attemptMsg (_DATA_ROOT :: rp)),
                   LogEntry.info (noContentMsg (_DATA_ROOT :: rp))], ?_, ?_⟩
          · simp [savedWorld, List.append_assoc]
          · simp [savedWorld, fsGet_write_self]
        · rw [parse_pdf_write htika hstr]
          refine ⟨[LogEntry.info (attemptMsg (_DATA_ROOT :: rp)),
                   LogEntry.info (savedParsedMsg (contentPath (_DATA_ROOT :: rp)))],
                  ?_, ?_⟩
          · simp [savedWorld, List.append_assoc]
          · show fsGet (fsWrite (fsWrite (savedWorld url rp c w).fs
                (metaPath (_DATA_ROOT :: rp))
                (FileData.text (env.pprintMeta md)))
                (contentPath (_DATA_ROOT :: rp)) (FileData.text str))
                (_DATA_ROOT :: rp) = some (FileData.binary c)
            rw [fsGet_write_ne _ _ _ _ hp, fsGet_write_ne _ _ _ _ hm]
            simp [savedWorld, fsGet_write_self]

/-- C10 witness: a concrete `.pdf` retrieval with a crashing extraction
service still leaves the saved payload on disk, with the save logged
before the extraction attempt. -/
theorem C10_save_precedes_extraction_witness :
    ∃ rest, (get_binary_file env200 "u" ["r.pdf"] emptyWorld).1.log =
        emptyWorld.log ++ [LogEntry.info (successMsg "u"),
                           LogEntry.info (savedBinaryMsg ["data", "r.pdf"])] ++ rest ∧
      fsGet (get_binary_file env200 "u" ["r.pdf"] emptyWorld).1.fs ["data", "r.pdf"] =
        some (FileData.binary [7]) :=
  C10_save_precedes_extraction env200 "u" ["r.pdf"] emptyWorld 200 [7] "okbody"
    rfl (by decide)
